import Mathlib

/-!
Shallow embedding of `sensor.py` from davidorlea/homeassistant-dwd_pollen.

The source is a single Home Assistant sensor platform. The embedded core is
the data pipeline: `DwdPollenApi.get_exposure` (fetch), and
`DwdPollenSensor.update` with its helpers `__find_partregion`,
`__calculate_level`, `__get_description`.

Modelling choices:
* Python dicts that the code indexes by key are modelled as association
  lists with first-match lookup; `d[k]` is `dictGet` (raising `KeyError` as
  `Except.error .keyError`) and `d.get(k, default)` is `dictGetD`.
* Subscripting `None` (which Python raises as `TypeError`) is modelled as
  `Except.error .typeError`; the `except KeyError` handler in `update`
  catches only `.keyError`, exactly as in the source.
* `datetime` values are modelled by `PyDatetime`: the proleptic ordinal of
  the date part plus the minute of the day. `x.date()` is `.date`,
  `x - timedelta(days=1)` is `.subDays 1` (it shifts the date ordinal by one
  and keeps the time of day, as in Python). The feed timestamps are carried
  already parsed: the claims under study concern documents whose
  `last_update` / `next_update` strings parse under the fixed format
  `"%Y-%m-%d %H:%M Uhr"`, so `strptime` is the identity on this data.
* Python `round(level / 6 * 100)` operates on floats. For every reachable
  level (`0,…,6`, the range of the rank table) the float result equals
  rounding the exact rational `level * 100 / 6` half-to-even: none of the
  seven quotients is a half-integer tie, and the double images of
  `level / 6 * 100` round to the same integers `0,17,33,50,67,83,100`.
  `pythonRound n d` implements round-half-to-even of `n / d` (for `d > 0`)
  in exact integer arithmetic.
* Two layers share the helpers. The typed layer (`Partregion`,
  `update_try`, `update`) covers documents whose partregion entries carry
  the `region_name`/`partregion_name` keys. The raw layer
  (`RawPartregion`, `update_try_raw`, `update_raw`) additionally admits
  partregion dicts missing those keys (or `Pollen`): there the `KeyError`
  from `partregion["region_name"]` / `partregion["partregion_name"]`
  (src/sensor.py:160-161) is caught at line 162 with the `exposure` dict
  partially built, and the final block then writes a fresh state and a
  partial attribute list before re-raising an uncaught `KeyError` at line
  177/178 — so `update_raw` returns the final sensor fields together with
  the exception escaping the method. `update_raw_agrees` proves the two
  layers coincide on fully-keyed documents.
-/

namespace DwdPollen

deriving instance DecidableEq for Except

/-- The Python exceptions that the embedded code can raise. -/
inductive PyErr
  | keyError
  | typeError
deriving DecidableEq, Repr

/-- Python `d[k]` on a dict modelled as an association list: the value of
the first matching key, or a raised `KeyError`. -/
def dictGet {κ α : Type} [DecidableEq κ] (d : List (κ × α)) (k : κ) :
    Except PyErr α :=
  match d with
  | [] => .error .keyError
  | (k₀, v) :: rest => if k₀ = k then .ok v else dictGet rest k

/-- Python `d.get(k, default)` on a dict modelled as an association list. -/
def dictGetD {κ α : Type} [DecidableEq κ] (d : List (κ × α)) (k : κ)
    (default : α) : α :=
  match d with
  | [] => default
  | (k₀, v) :: rest => if k₀ = k then v else dictGetD rest k default

/-- Key search as an `Option`: used only in specification statements, not
in the embedded code. -/
def dictFind {κ α : Type} [DecidableEq κ] (d : List (κ × α)) (k : κ) :
    Option α :=
  match d with
  | [] => none
  | (k₀, v) :: rest => if k₀ = k then some v else dictFind rest k

/-- Python `max(l, default=d)`: the maximum of the list, or `d` when the
list is empty. -/
def pyMax (l : List Int) (default : Int) : Int :=
  match l with
  | [] => default
  | x :: xs => xs.foldl max x

/-- Python 3 `round` (banker's rounding, ties to even) of the exact
rational `n / d`, for `d > 0`: `f` is the floor of the quotient, `r` the
remainder in `[0, d)`; a remainder below half rounds down, above half
rounds up, and an exact half goes to the even neighbour. -/
def pythonRound (n d : Int) : Int :=
  let f := Int.fdiv n d
  let r := n - d * f
  if 2 * r < d then f
  else if d < 2 * r then f + 1
  else if f % 2 = 0 then f else f + 1

/-- A `datetime.datetime` value: proleptic ordinal of the date part, and
the time of day in minutes. -/
structure PyDatetime where
  date : Int
  minute : Nat
deriving DecidableEq, Repr

/-- `x - timedelta(days=n)`: shifts the date ordinal, keeps the time of
day. -/
def PyDatetime.subDays (t : PyDatetime) (n : Int) : PyDatetime :=
  ⟨t.date - n, t.minute⟩

/-- One entry of the feed's `content` list (a sub-region forecast), with
the fields the code reads. `pollen` maps a raw species name to a mapping
from day-key to raw level band. -/
structure Partregion where
  partregion_id : Int
  region_name : String
  partregion_name : String
  pollen : List (String × List (String × String))
deriving DecidableEq, Repr

/-- The parsed feed document, with the fields the code reads
(`result["last_update"]`, `result["next_update"]`, `result["content"]`),
the two timestamps already parsed under the fixed format. -/
structure ForecastDocument where
  last_update : PyDatetime
  next_update : PyDatetime
  content : List Partregion
deriving DecidableEq, Repr

/-- A value stored in the sensor's attribute dict: the code stores strings
and `datetime` objects. -/
inductive AttrValue
  | str (s : String)
  | dt (d : PyDatetime)
deriving DecidableEq, Repr

/-- The observable sensor state after `update`: `self._state` and
`self._attributes`. -/
structure SensorState where
  state : Option Int
  attributes : List (String × AttrValue)
deriving DecidableEq, Repr

/-- `ATTRIBUTION` constant from the source (src/sensor.py:34). -/
def ATTRIBUTION : String := "Data provided by Deutscher Wetterdienst"

/-- The outcome of the single `requests.get` call, as seen by
`get_exposure`: the request itself may raise a `RequestException`
(DNS, connection, timeout), or a response arrives with a status
(`ok2xx = true` for 2xx) and a body that either parses as JSON to a
document (`some`) or does not (`none`). -/
inductive HttpResult
  | requestException
  | response (ok2xx : Bool) (body : Option ForecastDocument)
deriving DecidableEq, Repr

/-- The exception classes relevant inside `get_exposure`'s `try` block. -/
inductive ReqError
  | requestException
  | valueError
deriving DecidableEq, Repr

/-- The body of `get_exposure`'s `try` block (src/sensor.py:68-71):
`requests.get` raises `RequestException` on transport errors;
`response.raise_for_status()` raises `HTTPError` (a subclass of
`RequestException`) on a non-2xx status; `response.json()` raises
`ValueError` on a body that is not valid JSON; otherwise the parsed
document is returned. -/
def http_attempt (h : HttpResult) : Except ReqError ForecastDocument :=
  match h with
  | .requestException => .error .requestException
  | .response ok2xx body =>
      if ok2xx = false then .error .requestException
      else
        match body with
        | none => .error .valueError
        | some doc => .ok doc

/-- `DwdPollenApi.get_exposure` (src/sensor.py:62-77): both `except`
clauses log and return `None`, so every outcome of the attempt is mapped
to an `Option` and nothing is re-raised. -/
def get_exposure (h : HttpResult) : Option ForecastDocument :=
  match http_attempt h with
  | .ok doc => some doc
  | .error .requestException => none
  | .error .valueError => none

/-- `DwdPollenSensor.__find_partregion` (src/sensor.py:181-186): first
entry of the list whose `partregion_id` equals the requested id; Python
falls off the loop and implicitly returns `None` when there is none. -/
def find_partregion (partregion_list : List Partregion)
    (partregion_id : Int) : Option Partregion :=
  match partregion_list with
  | [] => none
  | partregion :: rest =>
      if partregion.partregion_id = partregion_id then some partregion
      else find_partregion rest partregion_id

/-- The `pollen_mapping` dict literal in `__calculate_level`
(src/sensor.py:191-195). -/
def pollen_mapping : List (String × List String) :=
  [("ambrosia", ["Ambrosia"]),
   ("grass", ["Graeser"]),
   ("tree", ["Beifuss", "Birke", "Erle", "Esche", "Hasel", "Roggen"])]

/-- The `level_mapping` dict literal in `__calculate_level`
(src/sensor.py:196-204). -/
def level_mapping : List (String × Int) :=
  [("0", 0), ("0-1", 1), ("1", 2), ("1-2", 3), ("2", 4), ("2-3", 5),
   ("3", 6)]

/-- The loop of `__calculate_level` (src/sensor.py:205-208): for each
species of the category, `pollen_list[pollen_type][day]` (either subscript
may raise `KeyError`), then `level_mapping.get(band, -1)`; the ranks are
collected in order. -/
def collect_levels (pollen_list : List (String × List (String × String)))
    (species : List String) (day : String) : Except PyErr (List Int) :=
  match species with
  | [] => .ok []
  | pollen_type :: rest => do
      let days ← dictGet pollen_list pollen_type
      let band ← dictGet days day
      let rest' ← collect_levels pollen_list rest day
      pure (dictGetD level_mapping band (-1) :: rest')

/-- `DwdPollenSensor.__calculate_level` (src/sensor.py:188-210):
`max(pollen_levels, default=-1)` over the collected ranks, where the
species list is `pollen_mapping.get(pollen_category, [])`. -/
def calculate_level (pollen_list : List (String × List (String × String)))
    (pollen_category : String) (day : String) : Except PyErr Int :=
  (collect_levels pollen_list (dictGetD pollen_mapping pollen_category [])
    day).map (fun levels => pyMax levels (-1))

/-- The `description_mapping` dict literal in `__get_description`
(src/sensor.py:215-223); note that entry 5 lacks the word "of" in the
source. -/
def description_mapping : List (Int × String) :=
  [(0, "no level of exposure"),
   (1, "no to low level of exposure"),
   (2, "low level of exposure"),
   (3, "low to medium level of exposure"),
   (4, "medium level of exposure"),
   (5, "medium to high level exposure"),
   (6, "high level of exposure")]

/-- `DwdPollenSensor.__get_description` (src/sensor.py:212-224). -/
def get_description (level : Int) : String :=
  dictGetD description_mapping level "unknown level of exposure"

/-- The exposure data assembled inside `update`'s `try` block
(src/sensor.py:144-161). In the typed model the only subscripts that can
fail inside the block are the pollen lookups in `__calculate_level`
(`KeyError`) and subscripting a `None` partregion (`TypeError`). -/
structure Exposure where
  level : Int
  last_update : PyDatetime
  next_update : PyDatetime
  region_name : String
  partregion_name : String
deriving DecidableEq, Repr

/-- The `try` block of `update` (src/sensor.py:127-161) over a typed
document (every partregion entry carries both name keys; the raw variant
below lifts this restriction): compute the three reference dates, read the
document's timestamps, locate the partregion, branch on the date of
`last_update` to pick the day-key (or force level `-1`), then read the
region names. Subscripting the partregion when `__find_partregion`
returned `None` raises `TypeError`. -/
def update_try (result : ForecastDocument) (partregion_id : Int)
    (pollen_type : String) (today : PyDatetime) : Except PyErr Exposure := do
  let yesterday := today.subDays 1
  let before_yesterday := yesterday.subDays 1
  let last_update := result.last_update
  let next_update := result.next_update
  let partregion := find_partregion result.content partregion_id
  let level ←
    if last_update.date = today.date then
      match partregion with
      | none => throw PyErr.typeError
      | some pr => calculate_level pr.pollen pollen_type "today"
    else if last_update.date = yesterday.date then
      match partregion with
      | none => throw PyErr.typeError
      | some pr => calculate_level pr.pollen pollen_type "tomorrow"
    else if last_update.date = before_yesterday.date then
      match partregion with
      | none => throw PyErr.typeError
      | some pr => calculate_level pr.pollen pollen_type "dayafter_to"
    else
      pure (-1)
  match partregion with
  | none => throw PyErr.typeError
  | some pr =>
      pure { level := level, last_update := last_update,
             next_update := next_update, region_name := pr.region_name,
             partregion_name := pr.partregion_name }

/-- The final `if exposure:` block of `update` (src/sensor.py:169-179):
with no exposure data the sensor keeps the reset `None` state and empty
attributes; otherwise the state is `round(level / 6 * 100)` when
`level >= 0` (and stays `None` otherwise) and the six attributes are
filled in. -/
def make_snapshot (exposure : Option Exposure) : SensorState :=
  match exposure with
  | none => { state := none, attributes := [] }
  | some e =>
      { state :=
          if e.level ≥ 0 then some (pythonRound (e.level * 100) 6)
          else none,
        attributes :=
          [("description", .str (get_description e.level)),
           ("last_update", .dt e.last_update),
           ("next_update", .dt e.next_update),
           ("region_name", .str e.region_name),
           ("partregion_name", .str e.partregion_name),
           ("attribution", .str ATTRIBUTION)] }

/-- `DwdPollenSensor.update` (src/sensor.py:117-179) given the fetch
result and the current datetime. The body first resets
`self._state`/`self._attributes`; a falsy fetch result or a caught
`KeyError` leaves `exposure` empty; `TypeError` from the `try` block is
not caught and propagates out of `update`. -/
def update (result : Option ForecastDocument) (partregion_id : Int)
    (pollen_type : String) (today : PyDatetime) :
    Except PyErr SensorState := do
  let exposure : Option Exposure ←
    match result with
    | none => pure none
    | some doc =>
        match update_try doc partregion_id pollen_type today with
        | .ok e => pure (some e)
        | .error .keyError => pure none
        | .error e => throw e
  pure (make_snapshot exposure)

/-- The full method including the previous snapshot: lines 120-121
overwrite `self._state` and `self._attributes` before anything else, so
the outcome never depends on the previous snapshot. -/
def sensor_update (_prev : SensorState) (result : Option ForecastDocument)
    (partregion_id : Int) (pollen_type : String) (today : PyDatetime) :
    Except PyErr SensorState :=
  update result partregion_id pollen_type today

/-- One refresh cycle: fetch, then resolve (the call sequence at
src/sensor.py:123 feeding src/sensor.py:126-179). -/
def refresh (prev : SensorState) (h : HttpResult) (partregion_id : Int)
    (pollen_type : String) (today : PyDatetime) : Except PyErr SensorState :=
  sensor_update prev (get_exposure h) partregion_id pollen_type today

/-- The raw band for species `sp` on day-key `day`, when both lookups
succeed: specification-side view of `pollen_list[sp][day]`. -/
def band_of (pl : List (String × List (String × String)))
    (sp day : String) : Option String :=
  (dictFind pl sp).bind fun days => dictFind days day

/-- The exposure record assembled at src/sensor.py:144-161 for a found
partregion and a computed level. -/
def mk_exposure (doc : ForecastDocument) (pr : Partregion)
    (level : Int) : Exposure :=
  { level := level, last_update := doc.last_update,
    next_update := doc.next_update, region_name := pr.region_name,
    partregion_name := pr.partregion_name }

/-- Concrete pollen dict carrying only three of the six tree species, with
the bands of the example in the specification:
`{Beifuss: "1", Birke: "3", Erle: "0"}` for day-key `today`. -/
def pollenThree : List (String × List (String × String)) :=
  [("Beifuss", [("today", "1")]), ("Birke", [("today", "3")]),
   ("Erle", [("today", "0")])]

/-- Concrete pollen dict carrying all six tree species: the three example
bands and band "0" for the remaining species. -/
def pollenFull : List (String × List (String × String)) :=
  [("Beifuss", [("today", "1")]), ("Birke", [("today", "3")]),
   ("Erle", [("today", "0")]), ("Esche", [("today", "0")]),
   ("Hasel", [("today", "0")]), ("Roggen", [("today", "0")])]

/-- Concrete partregion with the full pollen dict. -/
def prFull : Partregion :=
  { partregion_id := 124, region_name := "Schleswig-Holstein und Hamburg",
    partregion_name := "Geest", pollen := pollenFull }

/-- Concrete partregion whose pollen dict misses three tree species. -/
def prPartial : Partregion :=
  { partregion_id := 124, region_name := "Schleswig-Holstein und Hamburg",
    partregion_name := "Geest", pollen := pollenThree }

/-- Concrete document around `prFull`; `last_update` on day 800 at 11:00,
`next_update` one day later. -/
def docFull : ForecastDocument :=
  { last_update := ⟨800, 660⟩, next_update := ⟨801, 660⟩,
    content := [prFull] }

/-- Concrete document around `prPartial`. -/
def docPartial : ForecastDocument :=
  { last_update := ⟨800, 660⟩, next_update := ⟨801, 660⟩,
    content := [prPartial] }

/-- A partregion as it sits in the raw JSON, where the `region_name`,
`partregion_name` and `Pollen` keys may be absent from the dict: the
subscripts at src/sensor.py:144-154 and 160-161 then raise `KeyError`.
(`partregion_id` is kept present: an entry without it would already raise
inside `__find_partregion`, before any exposure data is assembled.) -/
structure RawPartregion where
  partregion_id : Int
  region_name : Option String
  partregion_name : Option String
  pollen : Option (List (String × List (String × String)))
deriving DecidableEq, Repr

/-- A feed document over raw partregion dicts. -/
structure RawForecastDocument where
  last_update : PyDatetime
  next_update : PyDatetime
  content : List RawPartregion
deriving DecidableEq, Repr

/-- `__find_partregion` (src/sensor.py:181-186), the same loop, over raw
partregion dicts. -/
def find_partregion_raw (partregion_list : List RawPartregion)
    (partregion_id : Int) : Option RawPartregion :=
  match partregion_list with
  | [] => none
  | partregion :: rest =>
      if partregion.partregion_id = partregion_id then some partregion
      else find_partregion_raw rest partregion_id

/-- The `exposure` dict after the `try` block when at least `level` was
assigned: `level`, `last_update` and `next_update` are always present
together (the assignments at src/sensor.py:144-159 cannot fail between
them), while the two name keys are present only if the corresponding
subscript at lines 160-161 succeeded before the block ended. -/
structure RawExposure where
  level : Int
  last_update : PyDatetime
  next_update : PyDatetime
  region_name : Option String
  partregion_name : Option String
deriving DecidableEq, Repr

/-- Outcome of the `try` block over a raw document: it ran to completion;
or a `KeyError` was raised and caught at src/sensor.py:162, leaving the
`exposure` dict built so far (`none` meaning still empty); or an uncaught
`TypeError` escaped. -/
inductive TryResult
  | completed (e : RawExposure)
  | caughtKeyError (e : Option RawExposure)
  | uncaughtType
deriving DecidableEq, Repr

/-- The `try` block of `update` (src/sensor.py:127-161) over a raw
document, tracking the `exposure` dict across the `except KeyError`
handler: a `KeyError` inside the level computation (missing `Pollen` key,
species or day-key) is caught with `exposure` still empty, because it
fires during the right-hand side of the `exposure["level"]` assignment;
the subscripts `partregion["region_name"]` / `partregion["partregion_name"]`
(lines 160-161) are caught with `level` and the two timestamps already
assigned (lines 144-159). -/
def update_try_raw (result : RawForecastDocument) (partregion_id : Int)
    (pollen_type : String) (today : PyDatetime) : TryResult :=
  let yesterday := today.subDays 1
  let before_yesterday := yesterday.subDays 1
  let last_update := result.last_update
  let next_update := result.next_update
  let partregion := find_partregion_raw result.content partregion_id
  let level : Except PyErr Int :=
    if last_update.date = today.date then
      match partregion with
      | none => .error .typeError
      | some pr =>
          match pr.pollen with
          | none => .error .keyError
          | some pl => calculate_level pl pollen_type "today"
    else if last_update.date = yesterday.date then
      match partregion with
      | none => .error .typeError
      | some pr =>
          match pr.pollen with
          | none => .error .keyError
          | some pl => calculate_level pl pollen_type "tomorrow"
    else if last_update.date = before_yesterday.date then
      match partregion with
      | none => .error .typeError
      | some pr =>
          match pr.pollen with
          | none => .error .keyError
          | some pl => calculate_level pl pollen_type "dayafter_to"
    else
      .ok (-1)
  match level with
  | .error .typeError => .uncaughtType
  | .error .keyError => .caughtKeyError none
  | .ok lvl =>
      match partregion with
      | none => .uncaughtType
      | some pr =>
          match pr.region_name with
          | none =>
              .caughtKeyError (some
                { level := lvl, last_update := last_update,
                  next_update := next_update, region_name := none,
                  partregion_name := none })
          | some rn =>
              match pr.partregion_name with
              | none =>
                  .caughtKeyError (some
                    { level := lvl, last_update := last_update,
                      next_update := next_update,
                      region_name := some rn, partregion_name := none })
              | some pn =>
                  .completed
                    { level := lvl, last_update := last_update,
                      next_update := next_update,
                      region_name := some rn, partregion_name := some pn }

/-- The `if exposure:` block (src/sensor.py:169-179) over the possibly
partial `exposure` dict, returning the final sensor fields together with
the `KeyError` escaping `update` when `exposure["region_name"]` (line 177)
or `exposure["partregion_name"]` (line 178) is absent: by then the state
(line 171) and the earlier attributes (lines 172-176, and line 177 for the
second case) are already written, in source order. -/
def finish_exposure (exposure : Option RawExposure) :
    SensorState × Option PyErr :=
  match exposure with
  | none => ({ state := none, attributes := [] }, none)
  | some e =>
      let st : Option Int :=
        if e.level ≥ 0 then some (pythonRound (e.level * 100) 6) else none
      let attrs :=
        [("description", AttrValue.str (get_description e.level)),
         ("last_update", AttrValue.dt e.last_update),
         ("next_update", AttrValue.dt e.next_update)]
      match e.region_name with
      | none => ({ state := st, attributes := attrs }, some .keyError)
      | some rn =>
          match e.partregion_name with
          | none =>
              ({ state := st,
                 attributes := attrs ++
                   [("region_name", AttrValue.str rn)] },
               some .keyError)
          | some pn =>
              ({ state := st,
                 attributes := attrs ++
                   [("region_name", AttrValue.str rn),
                    ("partregion_name", AttrValue.str pn),
                    ("attribution", AttrValue.str ATTRIBUTION)] },
               none)

/-- `DwdPollenSensor.update` (src/sensor.py:117-179) over a raw document:
the final `self._state` / `self._attributes` plus the exception escaping
the method, if any. -/
def update_raw (result : Option RawForecastDocument) (partregion_id : Int)
    (pollen_type : String) (today : PyDatetime) :
    SensorState × Option PyErr :=
  match result with
  | none => ({ state := none, attributes := [] }, none)
  | some doc =>
      match update_try_raw doc partregion_id pollen_type today with
      | .uncaughtType =>
          ({ state := none, attributes := [] }, some .typeError)
      | .caughtKeyError e => finish_exposure e
      | .completed e => finish_exposure (some e)

/-- The raw method including the previous snapshot, overwritten at lines
120-121 before anything else, so the outcome never depends on it. -/
def sensor_update_raw (_prev : SensorState)
    (result : Option RawForecastDocument) (partregion_id : Int)
    (pollen_type : String) (today : PyDatetime) :
    SensorState × Option PyErr :=
  update_raw result partregion_id pollen_type today

/-- A well-formed partregion is the raw dict with every key present. -/
def Partregion.toRaw (pr : Partregion) : RawPartregion :=
  { partregion_id := pr.partregion_id, region_name := some pr.region_name,
    partregion_name := some pr.partregion_name, pollen := some pr.pollen }

/-- A well-formed document as a raw one. -/
def ForecastDocument.toRaw (doc : ForecastDocument) : RawForecastDocument :=
  { last_update := doc.last_update, next_update := doc.next_update,
    content := doc.content.map Partregion.toRaw }

/-- Concrete raw partregion whose dict lacks both name keys. -/
def prRawNoRegion : RawPartregion :=
  { partregion_id := 124, region_name := none, partregion_name := none,
    pollen := some pollenFull }

/-- Concrete raw document around `prRawNoRegion`. -/
def docRawNoRegion : RawForecastDocument :=
  { last_update := ⟨800, 660⟩, next_update := ⟨801, 660⟩,
    content := [prRawNoRegion] }

/-- Concrete raw partregion whose dict lacks only `partregion_name`. -/
def prRawNoPartName : RawPartregion :=
  { partregion_id := 124,
    region_name := some "Schleswig-Holstein und Hamburg",
    partregion_name := none, pollen := some pollenFull }

/-- Concrete raw document around `prRawNoPartName`. -/
def docRawNoPartName : RawForecastDocument :=
  { last_update := ⟨800, 660⟩, next_update := ⟨801, 660⟩,
    content := [prRawNoPartName] }

/-- Concrete raw partregion with both name keys but only three of the six
tree species. -/
def prRawPartial : RawPartregion :=
  { partregion_id := 124,
    region_name := some "Schleswig-Holstein und Hamburg",
    partregion_name := some "Geest", pollen := some pollenThree }

/-- Concrete raw document around `prRawPartial`. -/
def docRawPartial : RawForecastDocument :=
  { last_update := ⟨800, 660⟩, next_update := ⟨801, 660⟩,
    content := [prRawPartial] }

/- ------------------------------------------------------------------ -/
/- Shared lemmas about the embedded helpers.                          -/
/- ------------------------------------------------------------------ -/

theorem dictGet_eq_dictFind {κ α : Type} [DecidableEq κ]
    (d : List (κ × α)) (k : κ) :
    dictGet d k = match dictFind d k with
      | some v => .ok v
      | none => .error .keyError := by
  induction d with
  | nil => rfl
  | cons p rest ih =>
      obtain ⟨k₀, v⟩ := p
      by_cases h : k₀ = k
      · simp [dictGet, dictFind, h]
      · simp [dictGet, dictFind, h, ih]

/-- When each species of the list has a band for the day, the loop of
`__calculate_level` collects exactly the ranks of those bands. -/
theorem collect_levels_ok (pl : List (String × List (String × String)))
    (day : String) (l : List String)
    (h : ∀ sp ∈ l, (band_of pl sp day).isSome = true) :
    collect_levels pl l day =
      .ok (l.map fun sp =>
        dictGetD level_mapping ((band_of pl sp day).getD "") (-1)) := by
  induction l with
  | nil => rfl
  | cons sp rest ih =>
      have hsp := h sp (List.mem_cons_self sp rest)
      obtain ⟨band, hband⟩ := Option.isSome_iff_exists.mp hsp
      obtain ⟨days, hdays, hday⟩ :
          ∃ days, dictFind pl sp = some days ∧
            dictFind days day = some band := by
        unfold band_of at hband
        cases hfind : dictFind pl sp with
        | none => simp [hfind] at hband
        | some days => exact ⟨days, rfl, by simpa [hfind] using hband⟩
      have hrest := ih (fun x hx => h x (List.mem_cons_of_mem _ hx))
      simp [collect_levels, dictGet_eq_dictFind, hdays, hday, hrest,
        band_of, hband, Bind.bind, Except.bind, Pure.pure, Except.pure]

/-- When some species of the list has no band for the day, the loop of
`__calculate_level` raises `KeyError`. -/
theorem collect_levels_err (pl : List (String × List (String × String)))
    (day : String) (l : List String)
    (h : ∃ sp ∈ l, band_of pl sp day = none) :
    collect_levels pl l day = .error .keyError := by
  induction l with
  | nil => simp at h
  | cons sp rest ih =>
      obtain ⟨x, hx, hnone⟩ := h
      rcases List.mem_cons.mp hx with rfl | hmem
      · unfold band_of at hnone
        cases hfind : dictFind pl x with
        | none =>
            simp [collect_levels, dictGet_eq_dictFind, hfind,
              Bind.bind, Except.bind]
        | some days =>
            have hdd : dictFind days day = none := by
              simpa [hfind] using hnone
            simp [collect_levels, dictGet_eq_dictFind, hfind, hdd,
              Bind.bind, Except.bind]
      · have hrest := ih ⟨x, hmem, hnone⟩
        cases hfind : dictFind pl sp with
        | none =>
            simp [collect_levels, dictGet_eq_dictFind, hfind,
              Bind.bind, Except.bind]
        | some days =>
            cases hdd : dictFind days day with
            | none =>
                simp [collect_levels, dictGet_eq_dictFind, hfind, hdd,
                  Bind.bind, Except.bind]
            | some band =>
                simp [collect_levels, dictGet_eq_dictFind, hfind, hdd,
                  hrest, Bind.bind, Except.bind]

/-- Case analysis of the `try` block when the partregion lookup succeeds:
the day-key is chosen purely from the date of `last_update`, and an offset
outside `{0, 1, 2}` days forces level `-1` without touching the pollen
data. -/
theorem update_try_found_cases (doc : ForecastDocument)
    (partregion_id : Int) (pollen_type : String) (today : PyDatetime)
    (pr : Partregion)
    (h : find_partregion doc.content partregion_id = some pr) :
    (doc.last_update.date = today.date →
       update_try doc partregion_id pollen_type today =
         (calculate_level pr.pollen pollen_type "today").map
           (mk_exposure doc pr))
  ∧ (doc.last_update.date = today.date - 1 →
       update_try doc partregion_id pollen_type today =
         (calculate_level pr.pollen pollen_type "tomorrow").map
           (mk_exposure doc pr))
  ∧ (doc.last_update.date = today.date - 2 →
       update_try doc partregion_id pollen_type today =
         (calculate_level pr.pollen pollen_type "dayafter_to").map
           (mk_exposure doc pr))
  ∧ (doc.last_update.date ≠ today.date →
     doc.last_update.date ≠ today.date - 1 →
     doc.last_update.date ≠ today.date - 2 →
       update_try doc partregion_id pollen_type today =
         .ok (mk_exposure doc pr (-1))) := by
  refine ⟨?_, ?_, ?_, ?_⟩
  · intro hd
    simp only [update_try, h, PyDatetime.subDays, hd, if_pos rfl]
    cases calculate_level pr.pollen pollen_type "today" with
    | ok l =>
        simp [Bind.bind, Except.bind, Except.map, Pure.pure, Except.pure,
          mk_exposure]
    | error e => simp [Bind.bind, Except.bind, Except.map]
  · intro hd
    simp only [update_try, h, PyDatetime.subDays, hd]
    simp only [if_neg (by omega : ¬ (today.date - 1 = today.date)),
      if_pos rfl]
    cases calculate_level pr.pollen pollen_type "tomorrow" with
    | ok l =>
        simp [Bind.bind, Except.bind, Except.map, Pure.pure, Except.pure,
          mk_exposure]
    | error e => simp [Bind.bind, Except.bind, Except.map]
  · intro hd
    simp only [update_try, h, PyDatetime.subDays, hd]
    simp only [if_neg (by omega : ¬ (today.date - 2 = today.date)),
      if_neg (by omega : ¬ (today.date - 2 = today.date - 1)),
      if_pos (by omega : today.date - 2 = today.date - 1 - 1)]
    cases calculate_level pr.pollen pollen_type "dayafter_to" with
    | ok l =>
        simp [Bind.bind, Except.bind, Except.map, Pure.pure, Except.pure,
          mk_exposure]
    | error e => simp [Bind.bind, Except.bind, Except.map]
  · intro h1 h2 h3
    simp only [update_try, h, PyDatetime.subDays]
    simp only [if_neg h1,
      if_neg (by omega : ¬ (doc.last_update.date = today.date - 1)),
      if_neg (by omega : ¬ (doc.last_update.date = today.date - 1 - 1))]
    simp [Bind.bind, Except.bind, Pure.pure, Except.pure, mk_exposure]

/-- When no partregion matches, every path of the typed `try` block hits
a subscript of `None` and raises `TypeError`. -/
theorem update_try_not_found (doc : ForecastDocument) (partregion_id : Int)
    (pollen_type : String) (today : PyDatetime)
    (h : find_partregion doc.content partregion_id = none) :
    update_try doc partregion_id pollen_type today = .error .typeError := by
  simp only [update_try, h]
  split_ifs <;> simp [Bind.bind, Except.bind, throw, throwThe,
    MonadExceptOf.throw, Pure.pure, Except.pure]

/-- When no partregion matches, every path of the raw `try` block hits a
subscript of `None` and raises `TypeError`. -/
theorem update_try_raw_not_found (doc : RawForecastDocument)
    (partregion_id : Int) (pollen_type : String) (today : PyDatetime)
    (h : find_partregion_raw doc.content partregion_id = none) :
    update_try_raw doc partregion_id pollen_type today = .uncaughtType := by
  simp only [update_try_raw, h]
  split_ifs <;> rfl

/-- Unfolding of `update` on a present fetch result: the `try` outcome is
either completed (snapshot assembled), a caught `KeyError` (empty
snapshot), or a propagated `TypeError`. -/
theorem update_some_eq (doc : ForecastDocument) (partregion_id : Int)
    (pollen_type : String) (today : PyDatetime) :
    update (some doc) partregion_id pollen_type today =
      match update_try doc partregion_id pollen_type today with
      | .ok e => .ok (make_snapshot (some e))
      | .error .keyError => .ok { state := none, attributes := [] }
      | .error .typeError => .error .typeError := by
  cases h : update_try doc partregion_id pollen_type today with
  | ok e =>
      simp [update, h, Bind.bind, Except.bind, Pure.pure, Except.pure]
  | error e =>
      cases e <;>
        simp [update, h, Bind.bind, Except.bind, Pure.pure, Except.pure,
          throw, throwThe, MonadExceptOf.throw, make_snapshot]

/-- `__find_partregion` commutes with the embedding of well-formed
partregions into raw dicts. -/
theorem find_partregion_raw_map (l : List Partregion)
    (partregion_id : Int) :
    find_partregion_raw (l.map Partregion.toRaw) partregion_id =
      (find_partregion l partregion_id).map Partregion.toRaw := by
  induction l with
  | nil => rfl
  | cons pr rest ih =>
      by_cases h : pr.partregion_id = partregion_id
      · simp [find_partregion_raw, find_partregion, Partregion.toRaw, h]
      · simp [find_partregion_raw, find_partregion, Partregion.toRaw, h, ih]

/-- On a fully-keyed document the raw pipeline coincides with the typed
one: a normal return gives the same snapshot with no escaping exception,
and an escaping `TypeError` leaves the reset state. -/
theorem update_raw_agrees (doc : ForecastDocument) (partregion_id : Int)
    (pollen_type : String) (today : PyDatetime) :
    update_raw (some doc.toRaw) partregion_id pollen_type today =
      match update (some doc) partregion_id pollen_type today with
      | .ok s => (s, none)
      | .error e => ({ state := none, attributes := [] }, some e) := by
  cases hfind : find_partregion doc.content partregion_id with
  | none =>
      have hraw : find_partregion_raw (doc.content.map Partregion.toRaw)
          partregion_id = none := by
        simp [find_partregion_raw_map, hfind]
      rw [update_some_eq, update_try_not_found doc partregion_id pollen_type today hfind]
      simp [update_raw, update_try_raw_not_found doc.toRaw partregion_id pollen_type today hraw]
  | some pr =>
      have hraw : find_partregion_raw (doc.content.map Partregion.toRaw)
          partregion_id = some pr.toRaw := by
        simp [find_partregion_raw_map, hfind]
      have hcases := update_try_found_cases doc partregion_id pollen_type today pr hfind
      rw [update_some_eq]
      by_cases h1 : doc.last_update.date = today.date
      · rw [hcases.1 h1]
        cases hc : calculate_level pr.pollen pollen_type "today" with
        | ok l =>
            simp [update_raw, update_try_raw, hraw, ForecastDocument.toRaw,
              Partregion.toRaw, PyDatetime.subDays, h1, hc, Except.map,
              finish_exposure, make_snapshot, mk_exposure, get_description]
        | error e =>
            cases e <;>
              simp [update_raw, update_try_raw, hraw, ForecastDocument.toRaw,
                Partregion.toRaw, PyDatetime.subDays, h1, hc, Except.map,
                finish_exposure]
      · by_cases h2 : doc.last_update.date = today.date - 1
        · rw [hcases.2.1 h2]
          cases hc : calculate_level pr.pollen pollen_type "tomorrow" with
          | ok l =>
              simp [update_raw, update_try_raw, hraw, ForecastDocument.toRaw,
                Partregion.toRaw, PyDatetime.subDays, h1, h2, hc, Except.map,
                finish_exposure, make_snapshot, mk_exposure, get_description]
          | error e =>
              cases e <;>
                simp [update_raw, update_try_raw, hraw, ForecastDocument.toRaw,
                  Partregion.toRaw, PyDatetime.subDays, h1, h2, hc, Except.map,
                  finish_exposure]
        · by_cases h3 : doc.last_update.date = today.date - 2
          · rw [hcases.2.2.1 h3]
            have h3' : doc.last_update.date = today.date - 1 - 1 := by omega
            have hne1 : ¬ (today.date - 1 - 1 = today.date) := by omega
            have hne2 : ¬ (today.date - 1 - 1 = today.date - 1) := by omega
            cases hc : calculate_level pr.pollen pollen_type "dayafter_to" with
            | ok l =>
                simp [update_raw, update_try_raw, hraw, ForecastDocument.toRaw,
                  Partregion.toRaw, PyDatetime.subDays, h3', hne1, hne2, hc,
                  Except.map, finish_exposure, make_snapshot, mk_exposure,
                  get_description]
            | error e =>
                cases e <;>
                  simp [update_raw, update_try_raw, hraw, ForecastDocument.toRaw,
                    Partregion.toRaw, PyDatetime.subDays, h3', hne1, hne2, hc,
                    Except.map, finish_exposure]
          · rw [hcases.2.2.2 h1 h2 h3]
            have hne3 : ¬ (doc.last_update.date = today.date - 1 - 1) := by
              omega
            simp [update_raw, update_try_raw, hraw, ForecastDocument.toRaw,
              Partregion.toRaw, PyDatetime.subDays, h1, h2, hne3,
              finish_exposure, make_snapshot, mk_exposure, get_description]

/- ------------------------------------------------------------------ -/
/- Claim theorems.                                                    -/
/- ------------------------------------------------------------------ -/

/-- Claim C1: the claim says that for every fetched document containing no
matching partregion, `update` returns normally with state `None`. The code
does the opposite: `__find_partregion` returns `None`, the subsequent
subscript raises `TypeError`, and the `except KeyError` handler does not
catch it, so `update` propagates the exception for every such document. -/
theorem update_no_partregion_raises (doc : ForecastDocument)
    (partregion_id : Int) (pollen_type : String) (today : PyDatetime)
    (h : find_partregion doc.content partregion_id = none) :
    update (some doc) partregion_id pollen_type today =
      .error .typeError := by
  have htry := update_try_not_found doc partregion_id pollen_type today h
  simp [update, htry, Bind.bind, Except.bind, throw, throwThe,
    MonadExceptOf.throw]

/-- Witness for C1: a concrete well-formed document whose single
partregion has id 124, queried for id 999, makes `update` raise. -/
theorem update_no_partregion_raises_witness :
    update (some docFull) 999 "tree" ⟨800, 600⟩ = .error .typeError :=
  update_no_partregion_raises docFull 999 "tree" ⟨800, 600⟩ (by decide)

/-- Claim C2 counterexample: on the claim's own example — category "tree"
with species bands `{Beifuss: "1", Birke: "3", Erle: "0"}` on "today" and
the other tree species absent — `__calculate_level` does not resolve level
6; the subscript `pollen_list["Esche"]` raises `KeyError`. -/
theorem calculate_level_missing_species_cex :
    calculate_level pollenThree "tree" "today" = .error .keyError ∧
    calculate_level pollenThree "tree" "today" ≠ .ok 6 := by
  decide

/-- Claim C2 (amended): when every constituent species of the category has
a band for the day-key, the level is the maximum over the constituent
species of the rank of its band (unrecognized band contributing rank `-1`,
and a category mapping to zero species yielding `-1` as the empty
maximum); but a constituent species missing from the pollen mapping (or
lacking the day-key) raises `KeyError` instead of contributing rank
`-1`. -/
theorem calculate_level_spec
    (pl : List (String × List (String × String))) (cat day : String) :
    ((∀ sp ∈ dictGetD pollen_mapping cat [],
        (band_of pl sp day).isSome = true) →
      calculate_level pl cat day =
        .ok (pyMax ((dictGetD pollen_mapping cat []).map fun sp =>
          dictGetD level_mapping ((band_of pl sp day).getD "") (-1)) (-1)))
  ∧ ((∃ sp ∈ dictGetD pollen_mapping cat [], band_of pl sp day = none) →
      calculate_level pl cat day = .error .keyError) := by
  constructor
  · intro h
    simp [calculate_level, collect_levels_ok pl day _ h, Except.map]
  · intro h
    simp [calculate_level, collect_levels_err pl day _ h, Except.map]

/-- Witness for C2 (amended): with all six tree species present (the three
example bands and "0" for the rest) the level is 6; with the three-species
example dict the call raises `KeyError`. -/
theorem calculate_level_spec_witness :
    calculate_level pollenFull "tree" "today" = .ok 6 ∧
    calculate_level pollenThree "tree" "today" = .error .keyError := by
  constructor
  · have h := (calculate_level_spec pollenFull "tree" "today").1 (by decide)
    rw [h]
    decide
  · exact (calculate_level_spec pollenThree "tree" "today").2
      ⟨"Esche", by decide, by decide⟩

/-- Claim C3: the band table maps "0","0-1","1","1-2","2","2-3","3" to
0,1,2,3,4,5,6 respectively, and every other string gets rank `-1`. -/
theorem level_mapping_spec :
    (dictGetD level_mapping "0" (-1) = 0 ∧
     dictGetD level_mapping "0-1" (-1) = 1 ∧
     dictGetD level_mapping "1" (-1) = 2 ∧
     dictGetD level_mapping "1-2" (-1) = 3 ∧
     dictGetD level_mapping "2" (-1) = 4 ∧
     dictGetD level_mapping "2-3" (-1) = 5 ∧
     dictGetD level_mapping "3" (-1) = 6)
  ∧ (∀ s : String, s ∉ ["0", "0-1", "1", "1-2", "2", "2-3", "3"] →
      dictGetD level_mapping s (-1) = -1) := by
  refine ⟨by decide, ?_⟩
  intro s hs
  simp [List.mem_cons] at hs
  obtain ⟨h0, h01, h1, h12, h2, h23, h3⟩ := hs
  simp [level_mapping, dictGetD, Ne.symm h0, Ne.symm h01, Ne.symm h1,
    Ne.symm h12, Ne.symm h2, Ne.symm h23, Ne.symm h3]

/-- Witness for C3: the out-of-table band "4" gets rank `-1`. -/
theorem level_mapping_spec_witness :
    "4" ∉ ["0", "0-1", "1", "1-2", "2", "2-3", "3"] ∧
    dictGetD level_mapping "4" (-1) = -1 :=
  ⟨by decide, level_mapping_spec.2 "4" (by decide)⟩

/-- Claim C4: with the partregion found, the day-key is chosen purely by
comparing the date part of `last_update` with the current date — equal
picks "today", one day earlier picks "tomorrow", two days earlier picks
"dayafter_to", and any other offset forces level `-1` with no day-key
lookup (the result does not touch the pollen data). -/
theorem day_key_selection (doc : ForecastDocument)
    (partregion_id : Int) (pollen_type : String) (today : PyDatetime)
    (pr : Partregion)
    (h : find_partregion doc.content partregion_id = some pr) :
    (doc.last_update.date = today.date →
       update_try doc partregion_id pollen_type today =
         (calculate_level pr.pollen pollen_type "today").map
           (mk_exposure doc pr))
  ∧ (doc.last_update.date = today.date - 1 →
       update_try doc partregion_id pollen_type today =
         (calculate_level pr.pollen pollen_type "tomorrow").map
           (mk_exposure doc pr))
  ∧ (doc.last_update.date = today.date - 2 →
       update_try doc partregion_id pollen_type today =
         (calculate_level pr.pollen pollen_type "dayafter_to").map
           (mk_exposure doc pr))
  ∧ (doc.last_update.date ≠ today.date →
     doc.last_update.date ≠ today.date - 1 →
     doc.last_update.date ≠ today.date - 2 →
       update_try doc partregion_id pollen_type today =
         .ok (mk_exposure doc pr (-1))) :=
  update_try_found_cases doc partregion_id pollen_type today pr h

/-- Witness for C4: on `docFull` equal dates select "today"; a 100-day
offset yields level `-1` directly. -/
theorem day_key_selection_witness :
    (update_try docFull 124 "tree" ⟨800, 600⟩ =
      (calculate_level prFull.pollen "tree" "today").map
        (mk_exposure docFull prFull)) ∧
    (update_try docFull 124 "tree" ⟨900, 600⟩ =
      .ok (mk_exposure docFull prFull (-1))) :=
  ⟨(day_key_selection docFull 124 "tree" ⟨800, 600⟩ prFull (by decide)).1
     (by decide),
   (day_key_selection docFull 124 "tree" ⟨900, 600⟩ prFull
     (by decide)).2.2.2 (by decide) (by decide) (by decide)⟩

/-- Claim C5: in a snapshot assembled from exposure data, the numeric
state is present iff the level is non-negative, and then equals the
Python rounding of `level / 6 * 100`; in particular level 0 gives 0,
level 3 gives 50, level 6 gives 100, and level `-1` leaves the state
`None`. -/
theorem percentage_spec (e : Exposure) :
    (((make_snapshot (some e)).state.isSome = true) ↔ 0 ≤ e.level)
  ∧ (0 ≤ e.level →
      (make_snapshot (some e)).state = some (pythonRound (e.level * 100) 6))
  ∧ (e.level = 0 → (make_snapshot (some e)).state = some 0)
  ∧ (e.level = 3 → (make_snapshot (some e)).state = some 50)
  ∧ (e.level = 6 → (make_snapshot (some e)).state = some 100)
  ∧ (e.level = -1 → (make_snapshot (some e)).state = none) := by
  obtain ⟨l, lu, nu, rn, pn⟩ := e
  refine ⟨?_, ?_, ?_, ?_, ?_, ?_⟩ <;> simp only [make_snapshot]
  · constructor
    · intro h
      by_contra hneg
      simp [if_neg (by omega : ¬ l ≥ 0)] at h
    · intro h
      simp [if_pos (by omega : l ≥ 0)]
  · intro h
    simp [if_pos (by omega : l ≥ 0)]
  · intro h
    subst h
    simp [pythonRound]
  · intro h
    subst h
    norm_num [pythonRound, Int.fdiv]
  · intro h
    subst h
    norm_num [pythonRound, Int.fdiv]
  · intro h
    subst h
    simp

/-- Witness for C5: a concrete exposure at level 3 produces state 50, and
at level `-1` no state. -/
theorem percentage_spec_witness :
    (make_snapshot (some ⟨3, ⟨800, 660⟩, ⟨801, 660⟩, "R", "P"⟩)).state =
      some 50 ∧
    (make_snapshot (some ⟨-1, ⟨800, 660⟩, ⟨801, 660⟩, "R", "P"⟩)).state =
      none :=
  ⟨(percentage_spec ⟨3, ⟨800, 660⟩, ⟨801, 660⟩, "R", "P"⟩).2.2.2.1 rfl,
   (percentage_spec ⟨-1, ⟨800, 660⟩, ⟨801, 660⟩, "R", "P"⟩).2.2.2.2.2 rfl⟩

/-- Claim C6: the description table maps ranks 0..6 exactly to the fixed
seven entries of the source (from "no level of exposure" up to "high level
of exposure"), and every integer outside 0..6 — including -1, 7 and 100 —
maps to "unknown level of exposure". -/
theorem get_description_spec :
    (get_description 0 = "no level of exposure" ∧
     get_description 1 = "no to low level of exposure" ∧
     get_description 2 = "low level of exposure" ∧
     get_description 3 = "low to medium level of exposure" ∧
     get_description 4 = "medium level of exposure" ∧
     get_description 5 = "medium to high level exposure" ∧
     get_description 6 = "high level of exposure")
  ∧ (get_description (-1) = "unknown level of exposure" ∧
     get_description 7 = "unknown level of exposure" ∧
     get_description 100 = "unknown level of exposure")
  ∧ (∀ n : Int, ¬ (0 ≤ n ∧ n ≤ 6) →
      get_description n = "unknown level of exposure") := by
  refine ⟨by decide, by decide, ?_⟩
  intro n hn
  have e0 : (0 : Int) ≠ n := by omega
  have e1 : (1 : Int) ≠ n := by omega
  have e2 : (2 : Int) ≠ n := by omega
  have e3 : (3 : Int) ≠ n := by omega
  have e4 : (4 : Int) ≠ n := by omega
  have e5 : (5 : Int) ≠ n := by omega
  have e6 : (6 : Int) ≠ n := by omega
  simp [get_description, description_mapping, dictGetD, e0, e1, e2, e3,
    e4, e5, e6]

/-- Witness for C6: rank 42 is outside 0..6 and yields the unknown
description. -/
theorem get_description_spec_witness :
    get_description 42 = "unknown level of exposure" :=
  get_description_spec.2.2 42 (by decide)

/-- Claim C7: `get_exposure` never raises — a transport error
(`RequestException` from the GET), a non-2xx status (which
`raise_for_status` turns into an `HTTPError`, itself a
`RequestException`), and a 2xx body that is not valid JSON
(`ValueError`) each return the failure signal `None` after logging; a
2xx response with valid JSON is returned as the parsed document with no
schema validation; altogether the result is exactly the attempt's
outcome with every exception mapped to `None`. -/
theorem get_exposure_spec :
    (get_exposure .requestException = none)
  ∧ (∀ body, get_exposure (.response false body) = none)
  ∧ (get_exposure (.response true none) = none)
  ∧ (∀ doc, get_exposure (.response true (some doc)) = some doc)
  ∧ (∀ h : HttpResult, get_exposure h = (http_attempt h).toOption) := by
  refine ⟨rfl, fun body => rfl, rfl, fun doc => rfl, ?_⟩
  intro h
  cases h with
  | requestException => rfl
  | response ok2xx body => cases ok2xx <;> cases body <;> rfl

/-- Claim C8: resolution is deterministic — the snapshot is a pure
function of the document, the ids and the current date: two runs of
`update` at datetimes sharing the same date part (in particular two runs
at the same instant) produce identical outcomes. -/
theorem update_date_deterministic (result : Option ForecastDocument)
    (partregion_id : Int) (pollen_type : String) (t₁ t₂ : PyDatetime)
    (h : t₁.date = t₂.date) :
    update result partregion_id pollen_type t₁ =
      update result partregion_id pollen_type t₂ := by
  obtain ⟨d₁, m₁⟩ := t₁
  obtain ⟨d₂, m₂⟩ := t₂
  simp only [PyDatetime.mk.injEq] at h
  subst h
  cases result with
  | none => rfl
  | some doc => simp [update, update_try, PyDatetime.subDays]

/-- Witness for C8: two refreshes of `docFull` on day 800, at 0:30 and at
16:39, agree. -/
theorem update_date_deterministic_witness :
    update (some docFull) 124 "tree" ⟨800, 30⟩ =
      update (some docFull) 124 "tree" ⟨800, 999⟩ :=
  update_date_deterministic (some docFull) 124 "tree" ⟨800, 30⟩
    ⟨800, 999⟩ rfl

/-- Claim C9: a well-formed document whose partregion is found but whose
`last_update` date is neither today nor one nor two days ago resolves to
level `-1`: the state stays `None`, yet all six attributes are populated,
with description "unknown level of exposure", the document's timestamps,
the region names and the attribution string. -/
theorem update_stale_document (doc : ForecastDocument)
    (partregion_id : Int) (pollen_type : String) (today : PyDatetime)
    (pr : Partregion)
    (hfind : find_partregion doc.content partregion_id = some pr)
    (h1 : doc.last_update.date ≠ today.date)
    (h2 : doc.last_update.date ≠ today.date - 1)
    (h3 : doc.last_update.date ≠ today.date - 2) :
    update (some doc) partregion_id pollen_type today =
      .ok { state := none,
            attributes :=
              [("description", .str "unknown level of exposure"),
               ("last_update", .dt doc.last_update),
               ("next_update", .dt doc.next_update),
               ("region_name", .str pr.region_name),
               ("partregion_name", .str pr.partregion_name),
               ("attribution", .str ATTRIBUTION)] } := by
  have htry := (update_try_found_cases doc partregion_id pollen_type today
    pr hfind).2.2.2 h1 h2 h3
  simp [update, htry, make_snapshot, mk_exposure, Bind.bind, Except.bind,
    Pure.pure, Except.pure, get_description, description_mapping, dictGetD]

/-- Witness for C9: `docFull` (last update on day 800) refreshed on day
900 keeps state `None` but fills all six attributes. -/
theorem update_stale_document_witness :
    update (some docFull) 124 "tree" ⟨900, 600⟩ =
      .ok { state := none,
            attributes :=
              [("description", .str "unknown level of exposure"),
               ("last_update", .dt docFull.last_update),
               ("next_update", .dt docFull.next_update),
               ("region_name", .str prFull.region_name),
               ("partregion_name", .str prFull.partregion_name),
               ("attribution", .str ATTRIBUTION)] } :=
  update_stale_document docFull 124 "tree" ⟨900, 600⟩ prFull (by decide)
    (by decide) (by decide) (by decide)

/-- Claim C10 counterexample: on a fresh document whose found partregion
dict lacks the `region_name` key, a `KeyError` is caught during resolution
(at src/sensor.py:160, with level 6 and both timestamps already in
`exposure`), yet the cycle ends with state 100 and three attributes
written — and a second, uncaught `KeyError` escaping at line 177 — not
with state `None` and empty attributes. -/
theorem update_raw_partial_retains_cex :
    update_try_raw docRawNoRegion 124 "tree" ⟨800, 600⟩ =
      .caughtKeyError (some
        { level := 6, last_update := ⟨800, 660⟩, next_update := ⟨801, 660⟩,
          region_name := none, partregion_name := none }) ∧
    update_raw (some docRawNoRegion) 124 "tree" ⟨800, 600⟩ =
      ({ state := some 100,
         attributes :=
           [("description", .str "high level of exposure"),
            ("last_update", .dt ⟨800, 660⟩),
            ("next_update", .dt ⟨801, 660⟩)] }, some .keyError) ∧
    (update_raw (some docRawNoRegion) 124 "tree" ⟨800, 600⟩).1 ≠
      { state := none, attributes := [] } := by
  decide

/-- Claim C10 (amended): every invocation still erases the previous
snapshot up front, so the outcome never depends on it; a fetch failure
signal (`None` result) and a `KeyError` caught while `exposure` is still
empty (during the level calculation: missing `Pollen` key, species or
day-key) end the cycle with state `None` and empty attributes. But a
`KeyError` caught at the region-name reads (src/sensor.py:160-161), after
level and timestamps are in `exposure`, does not clear the cycle: `update`
sets a fresh numeric state when level ≥ 0 and writes the partial
attributes (description and the two timestamps, plus `region_name` when
only `partregion_name` was missing), then a second, uncaught `KeyError`
escapes from the attribute-assembly block (line 177 resp. 178). -/
theorem update_raw_failure_behaviour (partregion_id : Int)
    (pollen_type : String) (today : PyDatetime) :
    (∀ prev result,
       sensor_update_raw prev result partregion_id pollen_type today =
         update_raw result partregion_id pollen_type today)
  ∧ (∀ prev,
       sensor_update_raw prev none partregion_id pollen_type today =
         ({ state := none, attributes := [] }, none))
  ∧ (∀ prev doc,
       update_try_raw doc partregion_id pollen_type today =
         .caughtKeyError none →
       sensor_update_raw prev (some doc) partregion_id pollen_type today =
         ({ state := none, attributes := [] }, none))
  ∧ (∀ prev doc e,
       update_try_raw doc partregion_id pollen_type today =
         .caughtKeyError (some e) →
       e.region_name = none →
       sensor_update_raw prev (some doc) partregion_id pollen_type today =
         ({ state :=
              if e.level ≥ 0 then some (pythonRound (e.level * 100) 6)
              else none,
            attributes :=
              [("description", .str (get_description e.level)),
               ("last_update", .dt e.last_update),
               ("next_update", .dt e.next_update)] }, some .keyError))
  ∧ (∀ prev doc e rn,
       update_try_raw doc partregion_id pollen_type today =
         .caughtKeyError (some e) →
       e.region_name = some rn →
       e.partregion_name = none →
       sensor_update_raw prev (some doc) partregion_id pollen_type today =
         ({ state :=
              if e.level ≥ 0 then some (pythonRound (e.level * 100) 6)
              else none,
            attributes :=
              [("description", .str (get_description e.level)),
               ("last_update", .dt e.last_update),
               ("next_update", .dt e.next_update),
               ("region_name", .str rn)] }, some .keyError)) := by
  refine ⟨fun prev result => rfl, fun prev => rfl, ?_, ?_, ?_⟩
  · intro prev doc h
    simp [sensor_update_raw, update_raw, h, finish_exposure]
  · intro prev doc e h hrn
    obtain ⟨l, lu, nu, rn, pn⟩ := e
    simp only at hrn
    subst hrn
    simp [sensor_update_raw, update_raw, h, finish_exposure]
  · intro prev doc e rn h hrn hpn
    obtain ⟨l, lu, nu, rn0, pn⟩ := e
    simp only at hrn hpn
    subst hrn
    subst hpn
    simp [sensor_update_raw, update_raw, h, finish_exposure]

/-- Witness for C10 (amended), each failure shape at a concrete input and
starting from a previous snapshot with state 50: a caught `KeyError` with
empty exposure (missing species) clears everything; a missing
`region_name` key retains state 100 with three attributes and re-raises; a
missing `partregion_name` key retains state 100 with four attributes and
re-raises. -/
theorem update_raw_failure_behaviour_witness :
    sensor_update_raw { state := some 50, attributes := [] }
      (some docRawPartial) 124 "tree" ⟨800, 600⟩ =
      ({ state := none, attributes := [] }, none) ∧
    sensor_update_raw { state := some 50, attributes := [] }
      (some docRawNoRegion) 124 "tree" ⟨800, 600⟩ =
      ({ state := some 100,
         attributes :=
           [("description", .str "high level of exposure"),
            ("last_update", .dt ⟨800, 660⟩),
            ("next_update", .dt ⟨801, 660⟩)] }, some .keyError) ∧
    sensor_update_raw { state := some 50, attributes := [] }
      (some docRawNoPartName) 124 "tree" ⟨800, 600⟩ =
      ({ state := some 100,
         attributes :=
           [("description", .str "high level of exposure"),
            ("last_update", .dt ⟨800, 660⟩),
            ("next_update", .dt ⟨801, 660⟩),
            ("region_name", .str "Schleswig-Holstein und Hamburg")] },
       some .keyError) := by
  refine ⟨?_, ?_, ?_⟩
  · exact (update_raw_failure_behaviour 124 "tree" ⟨800, 600⟩).2.2.1
      { state := some 50, attributes := [] } docRawPartial (by decide)
  · have h := (update_raw_failure_behaviour 124 "tree" ⟨800, 600⟩).2.2.2.1
      { state := some 50, attributes := [] } docRawNoRegion
      { level := 6, last_update := ⟨800, 660⟩, next_update := ⟨801, 660⟩,
        region_name := none, partregion_name := none } (by decide) rfl
    rw [h]
    decide
  · have h := (update_raw_failure_behaviour 124 "tree" ⟨800, 600⟩).2.2.2.2
      { state := some 50, attributes := [] } docRawNoPartName
      { level := 6, last_update := ⟨800, 660⟩, next_update := ⟨801, 660⟩,
        region_name := some "Schleswig-Holstein und Hamburg",
        partregion_name := none } "Schleswig-Holstein und Hamburg"
      (by decide) rfl rfl
    rw [h]
    decide

end DwdPollen
